import Mathlib

/-!
Verification of the FreeRTOS container isolation subsystem: a shallow embedding of
the cgroup controller, the PID-namespace controller, the IPC-namespace controller,
the container manager's creation path, and the container image codec, together with
theorems settling the specification's claims about them.

Machine integers (`UBaseType_t`, `TickType_t`, `uint8_t`, ...) are modelled as `Nat`;
where unsigned wraparound is observable (the tick-time subtraction in the CPU-window
rollover check, the 32-bit bitmap complement) it is made explicit with `% 2^32`
arithmetic.  Pointers are modelled as `Nat` (`0` = `NULL`) or as `Option Nat` slot
indices into the fixed-size global arrays, matching the C arrays-of-slots layout.
`pdPASS`/`pdFAIL` become `true`/`false`.
-/

namespace FreertosContainer

/-! ## Compile-time configuration constants (values from the source headers) -/

/-- `configMAX_PID_NAMESPACES` (pid_namespace.h). -/
def configMAX_PID_NAMESPACES : Nat := 4

/-- `configMAX_PID_NAMESPACE_NAME_LEN` (pid_namespace.h). -/
def configMAX_PID_NAMESPACE_NAME_LEN : Nat := 16

/-- `configPID_NAMESPACE_MAX_PID` (pid_namespace.h). -/
def configPID_NAMESPACE_MAX_PID : Nat := 10

/-- `configMAX_CGROUP_NAME_LEN` (container.h). -/
def configMAX_CGROUP_NAME_LEN : Nat := 16

/-- `(UBaseType_t)-1` on a 32-bit `UBaseType_t`: `CGROUP_NO_LIMIT` (container.h). -/
def CGROUP_NO_LIMIT : Nat := 2 ^ 32 - 1

/-- `CGROUP_CPU_QUOTA_MAX` (container.h): `1000U`, i.e. 100%. -/
def CGROUP_CPU_QUOTA_MAX : Nat := 1000

/-- `configCGROUP_CPU_WINDOW_DURATION` = `pdMS_TO_TICKS(1000)` (container.h): one
wall-second of ticks; at the default 1 kHz tick rate this is 1000 ticks.  None of the
results below depend on the particular value. -/
def configCGROUP_CPU_WINDOW_DURATION : Nat := 1000

/-- Mask of a 32-bit word, used for the C bitmap complement `~(1U << ux)`. -/
def UINT32_MASK : Nat := 2 ^ 32 - 1

/-- `TickType_t` subtraction `a - b` on a 32-bit tick counter (wraps modulo `2^32`). -/
def tickMinus (a b : Nat) : Nat := (a % 2 ^ 32 + (2 ^ 32 - b % 2 ^ 32)) % 2 ^ 32

theorem tickMinus_eq_sub {a b : Nat} (hba : b ≤ a) (ha : a < 2 ^ 32) :
    tickMinus a b = a - b := by
  have hb : b < 2 ^ 32 := lt_of_le_of_lt hba ha
  unfold tickMinus
  rw [Nat.mod_eq_of_lt ha, Nat.mod_eq_of_lt hb]
  have h1 : a + (2 ^ 32 - b) = 2 ^ 32 + (a - b) := by omega
  rw [h1, Nat.add_mod_left, Nat.mod_eq_of_lt (by omega)]

/-! ## PID namespace controller (pid_namespace.c)

The global state of the module: the slot array `xPidNamespaces`, the slot bitmap,
the root-namespace handle and the next-namespace-id counter.  A namespace handle is
the index of its slot (the C handle is the address of the slot); `Option Nat` with
`none` for `NULL`.  A task handle is a `Nat` with `0` for `NULL`. -/

/-- `PidNamespace_t` (pid_namespace.h). `xTasks` is the fixed-size task slot array,
entry `0` standing for a `NULL` slot. -/
structure PidNamespace where
  pcNamespaceName : String
  ulNamespaceId : Nat
  ulNextPid : Nat
  ulMaxPid : Nat
  xTasks : List Nat
  uxTaskCount : Nat
  xActive : Bool
  deriving DecidableEq, Repr

/-- The per-task TCB fields consumed by the controller: the owning namespace pointer
and the virtual PID. -/
structure TcbPidFields where
  pxPidNamespace : Option Nat
  uxVirtualPid : Nat
  deriving DecidableEq, Repr

/-- The module's global mutable state, plus the scheduler-side per-task fields
(`xTcbPid`, an association list task-handle → fields; absent task = unbound). -/
structure PidSysState where
  xPidNamespaces : List PidNamespace
  uxNamespaceBitmap : Nat
  xRootNamespace : Option Nat
  ulNextNamespaceId : Nat
  xTcbPid : List (Nat × TcbPidFields)
  deriving DecidableEq, Repr

/-- Replace the element at index `i` by `f` of it (identity when out of range). -/
def modifyAt (l : List PidNamespace) (i : Nat) (f : PidNamespace → PidNamespace) :
    List PidNamespace :=
  match l.get? i with
  | some x => l.set i (f x)
  | none => l

/-- Modelled from the spec: `pvTaskGetPidNamespace` is a scheduler-side TCB accessor
whose source (the modified tasks.c) is not under src/; §3 of the spec lists the
task-local state "a PID-namespace pointer, a virtual-PID".  It reads the task's
owning-namespace field (`none` when the task is unbound or the handle is `NULL`). -/
def pvTaskGetPidNamespace (s : PidSysState) (t : Nat) : Option Nat :=
  match s.xTcbPid.find? (fun p => p.1 == t) with
  | some p => p.2.pxPidNamespace
  | none => none

/-- Modelled from the spec: `uxTaskGetVirtualPid` is the matching TCB accessor for
the allocated virtual PID (sentinel `0` when unbound). -/
def uxTaskGetVirtualPid (s : PidSysState) (t : Nat) : Nat :=
  match s.xTcbPid.find? (fun p => p.1 == t) with
  | some p => p.2.uxVirtualPid
  | none => 0

/-- Update (or insert) the TCB entry of task `t`. -/
def tcbSet (l : List (Nat × TcbPidFields)) (t : Nat) (f : TcbPidFields) :
    List (Nat × TcbPidFields) :=
  match l.find? (fun p => p.1 == t) with
  | some _ => l.map (fun p => if p.1 == t then (t, f) else p)
  | none => (t, f) :: l

/-- Modelled from the spec: `xTaskSetPidNamespace` is the scheduler-side TCB helper
whose source is not under src/.  §4.2: "A per-task field stores both the owning
namespace pointer and the allocated virtual PID; both fields are cleared on removal
(sentinel value 0 for PID, null for namespace)"; §3 gives each namespace a
"fixed-size task slot array" which `find_task_by_virtual_pid` scans, so on binding
the helper records the task in the owning namespace's slot array (slot
`virtual-pid - 1`) and on unbinding clears the task from its current namespace's
slot array.  It returns `pdPASS` for a non-`NULL` task. -/
def xTaskSetPidNamespace (s : PidSysState) (t : Nat) (ns : Option Nat) (pid : Nat) :
    Bool × PidSysState :=
  if t == 0 then (false, s)
  else
    match ns with
    | some h =>
        (true, { s with
          xTcbPid := tcbSet s.xTcbPid t ⟨some h, pid⟩
          xPidNamespaces := modifyAt s.xPidNamespaces h
            (fun n => { n with xTasks := n.xTasks.set (pid - 1) t }) })
    | none =>
        let old := pvTaskGetPidNamespace s t
        let cleared := match old with
          | some h => modifyAt s.xPidNamespaces h
              (fun n => { n with xTasks := n.xTasks.map (fun x => if x == t then 0 else x) })
          | none => s.xPidNamespaces
        (true, { s with
          xTcbPid := tcbSet s.xTcbPid t ⟨none, 0⟩
          xPidNamespaces := cleared })

/-- `prvFindFreeNamespaceSlot`: first slot whose bitmap bit is clear. -/
def prvFindFreeNamespaceSlot (bitmap : Nat) : Option Nat :=
  (List.range configMAX_PID_NAMESPACES).find? (fun ux => !bitmap.testBit ux)

/-- `prvInitializeNamespace` (pid_namespace.c lines 118-144): fresh namespace
contents; the name is truncated to `configMAX_PID_NAMESPACE_NAME_LEN - 1` bytes. -/
def prvInitNamespace (nsId : Nat) (name : String) : PidNamespace where
  pcNamespaceName := (name.take (configMAX_PID_NAMESPACE_NAME_LEN - 1))
  ulNamespaceId := nsId
  ulNextPid := 1
  ulMaxPid := configPID_NAMESPACE_MAX_PID
  xTasks := List.replicate configPID_NAMESPACE_MAX_PID 0
  uxTaskCount := 0
  xActive := true

/-- `xPidNamespaceCreate`. -/
def xPidNamespaceCreate (s : PidSysState) (name : String) :
    Option Nat × PidSysState :=
  match prvFindFreeNamespaceSlot s.uxNamespaceBitmap with
  | none => (none, s)
  | some slot =>
      (some slot, { s with
        xPidNamespaces :=
          s.xPidNamespaces.set slot (prvInitNamespace s.ulNextNamespaceId name)
        ulNextNamespaceId := s.ulNextNamespaceId + 1
        uxNamespaceBitmap := s.uxNamespaceBitmap ||| (1 <<< slot) })

/-- `xPidNamespaceDelete` (pid_namespace.c lines 191-219).  Note: the function
checks only that the handle is non-`NULL`, the namespace is active and its task
count is zero — there is no special case for the root namespace. -/
def xPidNamespaceDelete (s : PidSysState) (ns : Option Nat) : Bool × PidSysState :=
  match ns with
  | none => (false, s)
  | some h =>
      match s.xPidNamespaces.get? h with
      | none => (false, s)
      | some pxNs =>
          if pxNs.xActive = false then (false, s)
          else if pxNs.uxTaskCount > 0 then (false, s)
          else
            (true, { s with
              xPidNamespaces := modifyAt s.xPidNamespaces h
                (fun n => { n with xActive := false })
              uxNamespaceBitmap :=
                s.uxNamespaceBitmap &&& (UINT32_MASK - (1 <<< h) % 2 ^ 32) })

/-- `prvPidNamespaceInit` (pid_namespace.c lines 150-165): all slots inactive,
bitmap and counters reset, then the root namespace is created. -/
def prvPidNamespaceInit : PidSysState :=
  let s0 : PidSysState :=
    { xPidNamespaces :=
        List.replicate configMAX_PID_NAMESPACES
          { pcNamespaceName := "", ulNamespaceId := 0, ulNextPid := 0, ulMaxPid := 0
            xTasks := List.replicate configPID_NAMESPACE_MAX_PID 0
            uxTaskCount := 0, xActive := false }
      uxNamespaceBitmap := 0
      xRootNamespace := none
      ulNextNamespaceId := 1
      xTcbPid := [] }
  let r := xPidNamespaceCreate s0 "root"
  { r.2 with xRootNamespace := r.1 }

/-- `prvAllocateVirtualPid` would return `0` in exactly this case (pid_namespace.c
lines 100-116); pulled out for readability of `xPidNamespaceAddTask`. -/
def pidExhausted (ns : PidNamespace) : Bool := ns.ulNextPid > ns.ulMaxPid

/-- `xPidNamespaceAddTask` (pid_namespace.c lines 221-250): null/inactive checks,
already-bound check, virtual-PID allocation (monotone `ulNextPid`), TCB update,
task-count increment. -/
def xPidNamespaceAddTask (s : PidSysState) (ns : Option Nat) (t : Nat) :
    Bool × PidSysState :=
  match ns with
  | none => (false, s)
  | some h =>
      match s.xPidNamespaces.get? h with
      | none => (false, s)
      | some pxNs =>
          if t == 0 then (false, s)
          else if pxNs.xActive = false then (false, s)
          else if (pvTaskGetPidNamespace s t).isSome then (false, s)
          else if pidExhausted pxNs then (false, s)
          else
            let pid := pxNs.ulNextPid
            let ns1 := modifyAt s.xPidNamespaces h
              (fun n => { n with ulNextPid := n.ulNextPid + 1 })
            let s1 := { s with xPidNamespaces := ns1 }
            let r := xTaskSetPidNamespace s1 t (some h) pid
            if r.1 then
              let ns2 := modifyAt r.2.xPidNamespaces h
                (fun n => { n with uxTaskCount := n.uxTaskCount + 1 })
              (true, { r.2 with xPidNamespaces := ns2 })
            else (false, r.2)

/-- `xPidNamespaceRemoveTask` (pid_namespace.c lines 252-276). -/
def xPidNamespaceRemoveTask (s : PidSysState) (ns : Option Nat) (t : Nat) :
    Bool × PidSysState :=
  match ns with
  | none => (false, s)
  | some h =>
      if t == 0 then (false, s)
      else if pvTaskGetPidNamespace s t = some h then
        let r := xTaskSetPidNamespace s t none 0
        if r.1 then
          let ns2 := modifyAt r.2.xPidNamespaces h
            (fun n => { n with uxTaskCount := n.uxTaskCount - 1 })
          (true, { r.2 with xPidNamespaces := ns2 })
        else (false, r.2)
      else (false, s)

/-- `xPidNamespaceFindTaskByVirtualPid` (pid_namespace.c lines 287-313): scan the
given namespace's task slot array for the first task whose virtual PID matches. -/
def xPidNamespaceFindTaskByVirtualPid (s : PidSysState) (ns : Option Nat)
    (pid : Nat) : Option Nat :=
  match ns with
  | none => none
  | some h =>
      match s.xPidNamespaces.get? h with
      | none => none
      | some pxNs =>
          if pxNs.xActive = false then none
          else if pid == 0 then none
          else pxNs.xTasks.find? (fun t => t != 0 && uxTaskGetVirtualPid s t == pid)

/-- `xTaskCreateInNamespace` (pid_namespace.c lines 324-359).  The underlying
`xTaskCreate` is the scheduler's task constructor (out of scope, §1 of the spec):
its outcome is a parameter (`createOk`, `fresh` = the new task's handle) and the set
of live tasks is threaded explicitly so that task deletion is observable.  In the
source the `vTaskDelete( xNewTask )` on bind failure is commented out: only the
local variable is set to `NULL`, so the new task stays alive.  The result is
(return value, value stored through `pxCreatedTask` — `some 0` meaning `NULL` was
stored, state, live tasks). -/
def xTaskCreateInNamespace (s : PidSysState) (live : List Nat) (createOk : Bool)
    (fresh : Nat) (ns : Option Nat) :
    Bool × Option Nat × PidSysState × List Nat :=
  match ns with
  | none => (false, none, s, live)
  | some _ =>
      if createOk then
        let live1 := live ++ [fresh]
        let r := xPidNamespaceAddTask s ns fresh
        if r.1 then (true, some fresh, r.2, live1)
        else
          (false, some 0, r.2, live1)
      else (false, none, s, live)

/-! ## IPC namespace controller (ipc_namespace.c)

For the access check only the global object-entry array, the root-namespace handle
and the caller task's TCB IPC-namespace field are consulted; they are passed in
directly.  Namespace handles are slot indices (`Nat`); IPC object pointers are
`Nat` with `0` for `NULL` (free entry slots have `pvIpcObject = 0`). -/

/-- `IpcObjectEntry_t` (ipc_namespace.h). -/
structure IpcObjectEntry where
  xNamespace : Option Nat
  pvIpcObject : Nat
  xObjectType : Nat
  pcObjectName : String
  ulObjectId : Nat
  deriving DecidableEq, Repr

/-- `xIpcNamespaceCheckAccess` (ipc_namespace.c lines 349-402).  `taskNs` is the
task's TCB field read by `xIpcNamespaceGetTaskNamespace`/`pvTaskGetIpcNamespace`
(scheduler-side accessor; `none` when the task is in no namespace — the code then
substitutes the root namespace).  The scan of the global entry array stops at the
first entry whose object pointer matches: access is allowed iff that entry's
namespace is the task's or the task's namespace is the root; an unregistered
object is always accessible (compatibility path). -/
def xIpcNamespaceCheckAccess (entries : List IpcObjectEntry) (rootNs : Nat)
    (taskNs : Option Nat) (obj : Nat) : Bool :=
  if obj == 0 then false
  else
    let xTaskNamespace := taskNs.getD rootNs
    match entries.find? (fun e => e.pvIpcObject == obj) with
    | some e =>
        if e.xNamespace = some xTaskNamespace then true
        else if xTaskNamespace == rootNs then true
        else false
    | none => true

/-! ## CGroup controller (cgroup.c) -/

/-- `MemoryLimits_t` (container.h). -/
structure MemoryLimits where
  ulMemoryLimit : Nat
  ulMemoryUsed : Nat
  ulMemoryPeak : Nat
  deriving DecidableEq, Repr

/-- `CpuLimits_t` (container.h). -/
structure CpuLimits where
  ulCpuQuota : Nat
  ulTicksUsed : Nat
  ulTicksQuota : Nat
  ulPenaltyTicksLeft : Nat
  xWindowStartTime : Nat
  xWindowDuration : Nat
  deriving DecidableEq, Repr

/-- `CGroup_t` (container.h); the member task list is tracked by `uxTaskCount`
and the global task map. -/
structure CGroup where
  pcGroupName : String
  xMemoryLimits : MemoryLimits
  xCpuLimits : CpuLimits
  uxTaskCount : Nat
  xActive : Bool
  deriving DecidableEq, Repr

/-- The cgroup contents initialized by `xCGroupCreate` (cgroup.c lines 228-256):
note `ulTicksQuota` is `CGROUP_NO_LIMIT` when `ulCpuQuota` is the
`CGROUP_CPU_QUOTA_MAX` sentinel and the raw quota value otherwise. -/
def xCGroupCreateStruct (name : String) (ulMemoryLimit ulCpuQuota cur : Nat) :
    CGroup where
  pcGroupName := name.take (configMAX_CGROUP_NAME_LEN - 1)
  xMemoryLimits := { ulMemoryLimit := ulMemoryLimit, ulMemoryUsed := 0, ulMemoryPeak := 0 }
  xCpuLimits :=
    { ulCpuQuota := ulCpuQuota
      ulTicksUsed := 0
      ulTicksQuota := if ulCpuQuota == CGROUP_CPU_QUOTA_MAX then CGROUP_NO_LIMIT else ulCpuQuota
      ulPenaltyTicksLeft := 0
      xWindowStartTime := cur
      xWindowDuration := configCGROUP_CPU_WINDOW_DURATION }
  uxTaskCount := 0
  xActive := true

/-- The relation between the raw CPU quota and the enforced tick quota that
`xCGroupCreate` (cgroup.c lines 246-247) establishes and `xCGroupSetCpuQuota`
(lines 488-489) maintains. -/
def cpuQuotaInv (cg : CGroup) : Prop :=
  cg.xCpuLimits.ulTicksQuota =
    (if cg.xCpuLimits.ulCpuQuota = CGROUP_CPU_QUOTA_MAX then CGROUP_NO_LIMIT
     else cg.xCpuLimits.ulCpuQuota)

/-- The cgroup module's global state consumed by the admission check: the cgroup
slot array and the task→cgroup mapping table (`xTaskCGroupMap`, entries
(task handle, cgroup slot index)). -/
structure CGroupSysState where
  xCGroups : List CGroup
  uxCGroupBitmap : Nat
  xTaskCGroupMap : List (Nat × Nat)
  deriving DecidableEq, Repr

/-- `prvGetCGroupFromTask` (cgroup.c lines 102-117): first mapping entry for the
task, if any. -/
def prvGetCGroupFromTask (s : CGroupSysState) (t : Nat) : Option Nat :=
  if t == 0 then none
  else
    match s.xTaskCGroupMap.find? (fun p => p.1 == t) with
    | some p => some p.2
    | none => none

/-- `prvCGroupCanTaskRun` (cgroup.c lines 598-626): a `NULL` or unbound task may
always run; otherwise the task is blocked while its cgroup is in a penalty period
or has used up its tick quota in the current window.  (A mapping entry always
points at a valid cgroup slot, so the out-of-range deref case is unreachable;
it is mapped to `true` like the unbound case.) -/
def prvCGroupCanTaskRun (s : CGroupSysState) (t : Nat) : Bool :=
  if t == 0 then true
  else
    match prvGetCGroupFromTask s t with
    | none => true
    | some i =>
        match s.xCGroups.get? i with
        | none => true
        | some cg =>
            if cg.xCpuLimits.ulPenaltyTicksLeft > 0 then false
            else if cg.xCpuLimits.ulTicksQuota ≠ CGROUP_NO_LIMIT ∧
                cg.xCpuLimits.ulTicksUsed ≥ cg.xCpuLimits.ulTicksQuota then false
            else true

/-- `prvCalculatePenalty` (cgroup.c lines 183-199): when the quota is finite and
exceeded, add `excess * configCGROUP_CPU_WINDOW_DURATION / ulTicksQuota` penalty
ticks. -/
def prvCalculatePenalty (cg : CGroup) : CGroup :=
  if cg.xCpuLimits.ulTicksQuota ≠ CGROUP_NO_LIMIT ∧
      cg.xCpuLimits.ulTicksUsed > cg.xCpuLimits.ulTicksQuota then
    let ulExcess := cg.xCpuLimits.ulTicksUsed - cg.xCpuLimits.ulTicksQuota
    { cg with xCpuLimits := { cg.xCpuLimits with
        ulPenaltyTicksLeft := cg.xCpuLimits.ulPenaltyTicksLeft +
          ulExcess * configCGROUP_CPU_WINDOW_DURATION / cg.xCpuLimits.ulTicksQuota } }
  else cg

/-- `prvUpdateCpuWindow` (cgroup.c lines 154-181): when the (wrapping) tick
difference since the window start reaches the window duration, compute the
penalty for the ending window, reset the window, and reduce the penalty count by
one (saturating at zero). -/
def prvUpdateCpuWindow (cur : Nat) (cg : CGroup) : CGroup :=
  if tickMinus cur cg.xCpuLimits.xWindowStartTime ≥ cg.xCpuLimits.xWindowDuration then
    let cg1 := prvCalculatePenalty cg
    let cg2 := { cg1 with xCpuLimits := { cg1.xCpuLimits with
      xWindowStartTime := cur, ulTicksUsed := 0 } }
    if cg2.xCpuLimits.ulPenaltyTicksLeft > 0 then
      { cg2 with xCpuLimits := { cg2.xCpuLimits with
          ulPenaltyTicksLeft :=
            if cg2.xCpuLimits.ulPenaltyTicksLeft > 1 then
              cg2.xCpuLimits.ulPenaltyTicksLeft - 1
            else 0 } }
    else cg2
  else cg

/-- One tick of `prvCGroupUpdateTick` (cgroup.c lines 628-660) as it acts on a
single active cgroup: the tick-usage increment when the currently running task
belongs to this cgroup (`runningHere`), then the loop body — `prvUpdateCpuWindow`
followed by the per-tick penalty decrement. -/
def prvCGroupUpdateTickOne (cur : Nat) (runningHere : Bool) (cg : CGroup) : CGroup :=
  let cg0 :=
    if runningHere then
      { cg with xCpuLimits := { cg.xCpuLimits with
          ulTicksUsed := cg.xCpuLimits.ulTicksUsed + 1 } }
    else cg
  let cg1 := prvUpdateCpuWindow cur cg0
  if cg1.xCpuLimits.ulPenaltyTicksLeft > 0 then
    { cg1 with xCpuLimits := { cg1.xCpuLimits with
        ulPenaltyTicksLeft := cg1.xCpuLimits.ulPenaltyTicksLeft - 1 } }
  else cg1

/-- The penalty that one tick's window rollover adds for a cgroup (the formula of
`prvCalculatePenalty` applied after the tick-usage increment `run`): zero when the
tick quota is `CGROUP_NO_LIMIT` or not exceeded, else
`excess * configCGROUP_CPU_WINDOW_DURATION / ulTicksQuota`. -/
def rolloverPenalty (cg : CGroup) (run : Bool) : Nat :=
  let u := cg.xCpuLimits.ulTicksUsed + (if run then 1 else 0)
  if cg.xCpuLimits.ulTicksQuota ≠ CGROUP_NO_LIMIT ∧ u > cg.xCpuLimits.ulTicksQuota then
    (u - cg.xCpuLimits.ulTicksQuota) * configCGROUP_CPU_WINDOW_DURATION /
      cg.xCpuLimits.ulTicksQuota
  else 0

/-! ## Container manager creation path (container.c, `xContainerCreateWithLimits`)

The construction steps call out to the allocator, the three controllers and the
container-list mutex; their outcomes are the environment of the run.  The
embedding records the side-effect structure of the source: which resources end up
created, deleted or never created, whether the struct is freed, and whether the
container was linked into the list. -/

/-- Outcome of one constructed resource (or of the container struct). -/
inductive ResStatus where
  | notCreated
  | live
  | deleted
  deriving DecidableEq, Repr

/-- Outcomes of the external calls made during `xContainerCreateWithLimits`:
`pcName != NULL`, `pvPortMalloc` success, non-`NULL` results of `xCGroupCreate` /
`xPidNamespaceCreate` / `xIpcNamespaceCreate`, and `xSemaphoreTake` on the
container-list mutex. -/
structure CreateEnv where
  nameValid : Bool
  mallocOk : Bool
  cgroupOk : Bool
  pidNsOk : Bool
  ipcNsOk : Bool
  mutexOk : Bool
  deriving DecidableEq, Repr

/-- Result of `xContainerCreateWithLimits`. -/
structure CreateOutcome where
  xReturn : Bool
  cgStatus : ResStatus
  pidStatus : ResStatus
  ipcStatus : ResStatus
  structStatus : ResStatus
  addedToList : Bool
  deriving DecidableEq, Repr

/-- The cleanup of one resource handle on the failure path: a created resource is
deleted, a `NULL` handle is skipped. -/
def cleanupRes : ResStatus → ResStatus
  | ResStatus.live => ResStatus.deleted
  | r => r

/-- `xContainerCreateWithLimits` (container.c lines 249-370).  The source checks
the name, allocates the struct, then creates cgroup, PID namespace and IPC
namespace — each of these three creations is allowed to fail, the code comments
"Continue without CGroup" / "continue without it" and proceeds — and finally
prepends the container to the list under the mutex and returns `pdPASS`.  Only
when taking the mutex fails does it delete whatever non-`NULL` resource handles it
holds, free the struct and return `pdFAIL`. -/
def xContainerCreateWithLimits (env : CreateEnv) : CreateOutcome :=
  if env.nameValid = false then
    { xReturn := false, cgStatus := ResStatus.notCreated
      pidStatus := ResStatus.notCreated, ipcStatus := ResStatus.notCreated
      structStatus := ResStatus.notCreated, addedToList := false }
  else if env.mallocOk = false then
    { xReturn := false, cgStatus := ResStatus.notCreated
      pidStatus := ResStatus.notCreated, ipcStatus := ResStatus.notCreated
      structStatus := ResStatus.notCreated, addedToList := false }
  else
    let cg := if env.cgroupOk then ResStatus.live else ResStatus.notCreated
    let pid := if env.pidNsOk then ResStatus.live else ResStatus.notCreated
    let ipc := if env.ipcNsOk then ResStatus.live else ResStatus.notCreated
    if env.mutexOk then
      { xReturn := true, cgStatus := cg, pidStatus := pid, ipcStatus := ipc
        structStatus := ResStatus.live, addedToList := true }
    else
      { xReturn := false, cgStatus := cleanupRes cg, pidStatus := cleanupRes pid
        ipcStatus := cleanupRes ipc, structStatus := ResStatus.deleted
        addedToList := false }

/-! ## Container image codec (container_image.c)

The image is a byte list; `file_read` of `n` bytes fails (short read) when fewer
than `n` bytes remain.  The filesystem environment (stat/mkdir/open outcomes) is
passed in; writes of the unpacked output files and reads of the input files
during pack are modelled as succeeding — the flash layer is an out-of-scope
collaborator (§1 of the spec). -/

/-- Read exactly `n` bytes; `none` models `file_read` returning fewer than `n`. -/
def readBytes (n : Nat) (bs : List Nat) : Option (List Nat × List Nat) :=
  if n ≤ bs.length then some (bs.take n, bs.drop n) else none

/-- Little-endian decoding of a byte list (the 8-byte record size field). -/
def leDecode (bs : List Nat) : Nat :=
  match bs with
  | [] => 0
  | b :: rest => b % 256 + 256 * leDecode rest

/-- Little-endian encoding of `v` into `n` bytes (the written size field). -/
def leEncode (n v : Nat) : List Nat :=
  match n with
  | 0 => []
  | m + 1 => v % 256 :: leEncode m (v / 256)

/-- The 256-byte filename field written by pack: name truncated to 255 bytes,
zero-padded to 256 (`memset` + `strncpy`, container_image.c lines 439-441). -/
def nameField (name : List Nat) : List Nat :=
  let t := name.take 255
  t ++ List.replicate (256 - t.length) 0

/-- The filename recovered by unpack from the 256-byte field: last byte forced to
`NUL`, then the bytes up to the first `NUL`. -/
def nameOfField (field : List Nat) : List Nat :=
  (field.set 255 0).takeWhile (fun b => b ≠ 0)

/-- The per-record loop of `xContainerUnpackImage` (container_image.c lines
202-286): for each of `n` records read the 8-byte size, the 256-byte name and the
payload, and write the output file.  Returns whether all records were processed
and the files written so far (files written before a failing record remain). -/
def prvUnpackLoop : Nat → List Nat → Bool × List (List Nat × List Nat)
  | 0, _ => (true, [])
  | n + 1, bs =>
      match readBytes 8 bs with
      | none => (false, [])
      | some (szb, bs1) =>
          match readBytes 256 bs1 with
          | none => (false, [])
          | some (nameb, bs2) =>
              match readBytes (leDecode szb) bs2 with
              | none => (false, [])
              | some (payload, bs3) =>
                  let r := prvUnpackLoop n bs3
                  (r.1, (nameOfField nameb, payload) :: r.2)

/-- Filesystem-environment outcomes of `xContainerUnpackImage`: non-`NULL` image
path, initialized filesystem, `/var` and `/var/container` present-or-created,
whether `/var/container/<id>` already exists, `mkdir` success, and the open of the
image file. -/
structure UnpackEnv where
  imagePathValid : Bool
  fsOk : Bool
  varOk : Bool
  varContainerOk : Bool
  dirAlreadyExists : Bool
  mkdirOk : Bool
  openOk : Bool
  image : List Nat
  deriving DecidableEq, Repr

/-- Result of `xContainerUnpackImage`: return value, whether `/var/container/<id>`
was created by this call, whether it was removed again on the failure path, and
the (name, payload) files written into it. -/
structure UnpackOutcome where
  xReturn : Bool
  dirCreated : Bool
  dirRemoved : Bool
  files : List (List Nat × List Nat)
  deriving DecidableEq, Repr

/-- `xContainerUnpackImage` (container_image.c lines 95-306).  Failure to open the
image file takes the `cleanup_dir` path, which removes the container directory;
every later failure (count byte, record size, name, payload, output write) takes
the `cleanup_file` path, which only closes the image file — the block that should
remove the directory contains only a comment ("Note: lfs_remove requires directory
to be empty, may need to iterate and remove files first") and no removal. -/
def xContainerUnpackImage (env : UnpackEnv) : UnpackOutcome :=
  if env.imagePathValid = false then
    { xReturn := false, dirCreated := false, dirRemoved := false, files := [] }
  else if env.fsOk = false then
    { xReturn := false, dirCreated := false, dirRemoved := false, files := [] }
  else if env.varOk = false then
    { xReturn := false, dirCreated := false, dirRemoved := false, files := [] }
  else if env.varContainerOk = false then
    { xReturn := false, dirCreated := false, dirRemoved := false, files := [] }
  else if env.dirAlreadyExists then
    { xReturn := false, dirCreated := false, dirRemoved := false, files := [] }
  else if env.mkdirOk = false then
    { xReturn := false, dirCreated := false, dirRemoved := false, files := [] }
  else if env.openOk = false then
    { xReturn := false, dirCreated := true, dirRemoved := true, files := [] }
  else
    match readBytes 1 env.image with
    | none => { xReturn := false, dirCreated := true, dirRemoved := false, files := [] }
    | some (cb, bs) =>
        let ucNumFiles := leDecode cb
        if ucNumFiles == 0 then
          { xReturn := true, dirCreated := true, dirRemoved := false, files := [] }
        else
          let r := prvUnpackLoop ucNumFiles bs
          if r.1 then
            { xReturn := true, dirCreated := true, dirRemoved := false, files := r.2 }
          else
            { xReturn := false, dirCreated := true, dirRemoved := false, files := r.2 }

/-- One entry of the container directory listing during pack (`lfs_info`): name
bytes, regular-file flag (`LFS_TYPE_REG` vs directory), content. -/
structure DirEntry where
  name : List Nat
  isReg : Bool
  content : List Nat
  deriving DecidableEq, Repr

/-- Filesystem-environment outcomes of `xContainerPackImage`: non-`NULL` image
path, initialized filesystem, container directory exists, `dir_open` success,
creation of the output image file, and the directory listing (both passes visit
`entries` in the same order). -/
structure PackEnv where
  imagePathValid : Bool
  fsOk : Bool
  dirExists : Bool
  dirOpenOk : Bool
  imageCreateOk : Bool
  entries : List DirEntry
  deriving DecidableEq, Repr

/-- The dot byte `.` = 46; pack skips the entries named `.` and `..`. -/
def isDotEntry (e : DirEntry) : Bool := e.name == [46] || e.name == [46, 46]

/-- The regular files that pack counts and serializes. -/
def packCandidates (entries : List DirEntry) : List DirEntry :=
  entries.filter (fun e => !isDotEntry e && e.isReg)

/-- One serialized pack record: 8-byte little-endian size, 256-byte padded name,
payload. -/
def packRecord (e : DirEntry) : List Nat :=
  leEncode 8 e.content.length ++ nameField e.name ++ e.content

/-- `xContainerPackImage` (container_image.c lines 307-533): after the counting
pass, more than 255 regular files is an overflow failure and zero regular files is
a "No files to pack" failure — both before the image file is created; otherwise
the count byte and the records are written.  The result is (return value, the
image file's bytes — `none` when the image file was never created or was removed
on a failure path). -/
def xContainerPackImage (env : PackEnv) : Bool × Option (List Nat) :=
  if env.imagePathValid = false then (false, none)
  else if env.fsOk = false then (false, none)
  else if env.dirExists = false then (false, none)
  else if env.dirOpenOk = false then (false, none)
  else
    let files := packCandidates env.entries
    if files.length > 255 then (false, none)
    else if files.length == 0 then (false, none)
    else if env.imageCreateOk = false then (false, none)
    else (true, some (files.length :: (files.map packRecord).flatten))

/-! ## Theorems about the PID namespace controller -/

theorem modifyAt_getElem?_ulNextPid (l : List PidNamespace) (i j : Nat)
    (f : PidNamespace → PidNamespace) (hf : ∀ x, (f x).ulNextPid = x.ulNextPid) :
    ((modifyAt l i f)[j]?).map PidNamespace.ulNextPid
      = (l[j]?).map PidNamespace.ulNextPid := by
  unfold modifyAt
  cases hgi : l.get? i with
  | none => rfl
  | some x =>
      rw [List.getElem?_set]
      by_cases hij : i = j
      · subst hij
        have hi : i < l.length := by
          by_contra hc
          rw [List.get?_eq_none.mpr (Nat.le_of_not_lt hc)] at hgi
          cases hgi
        have hx : l[i]? = some x := by rw [← List.get?_eq_getElem?]; exact hgi
        rw [if_pos rfl, if_pos hi, hx]
        simp [hf]
      · rw [if_neg hij]

/-- Claim C10: once a PID namespace has allocated all of its virtual PIDs
(`ulNextPid > ulMaxPid`), every subsequent `xPidNamespaceAddTask` on it returns
`pdFAIL` and leaves the whole state unchanged; and `xPidNamespaceRemoveTask` never
changes any namespace's `ulNextPid`, so removing tasks never makes virtual PIDs
available again within the namespace's lifetime. -/
theorem pid_exhaustion_is_permanent (s : PidSysState) (h t : Nat)
    (ns : PidNamespace) (hget : s.xPidNamespaces.get? h = some ns)
    (hex : ns.ulMaxPid < ns.ulNextPid) :
    xPidNamespaceAddTask s (some h) t = (false, s) ∧
    ∀ (s2 : PidSysState) (nsh : Option Nat) (t2 i : Nat),
      ((((xPidNamespaceRemoveTask s2 nsh t2).2).xPidNamespaces)[i]?).map
          PidNamespace.ulNextPid
        = ((s2.xPidNamespaces)[i]?).map PidNamespace.ulNextPid := by
  constructor
  · have hexb : pidExhausted ns = true := by
      simp only [pidExhausted, gt_iff_lt, decide_eq_true_eq]
      exact hex
    simp only [xPidNamespaceAddTask, hget, hexb]
    split <;> first | rfl | simp_all
  · intro s2 nsh t2 i
    cases nsh with
    | none => rfl
    | some h2 =>
        simp only [xPidNamespaceRemoveTask]
        by_cases h0 : (t2 == 0) = true
        · rw [if_pos h0]
        · rw [if_neg h0]
          by_cases hin : pvTaskGetPidNamespace s2 t2 = some h2
          · rw [if_pos hin]
            unfold xTaskSetPidNamespace
            rw [if_neg h0, hin]
            simp [modifyAt_getElem?_ulNextPid]
          · rw [if_neg hin]

/-- Claim C8 (code bug): the source has no root-namespace guard in
`xPidNamespaceDelete` (unlike the IPC twin `xIpcNamespaceDelete`): right after
`prvPidNamespaceInit` the root namespace is slot 0 and has zero tasks, so deleting
it returns `pdPASS` and deactivates it — the spec's "root namespace cannot be
deleted" invariant is violated by the code. -/
theorem root_pid_namespace_delete_succeeds :
    prvPidNamespaceInit.xRootNamespace = some 0 ∧
    ((prvPidNamespaceInit.xPidNamespaces.get? 0).map PidNamespace.xActive
      = some true) ∧
    (xPidNamespaceDelete prvPidNamespaceInit (some 0)).1 = true ∧
    (((xPidNamespaceDelete prvPidNamespaceInit (some 0)).2.xPidNamespaces.get? 0).map
        PidNamespace.xActive = some false) := by
  refine ⟨rfl, rfl, rfl, rfl⟩

/-- Claim C9 (code bug): in `xTaskCreateInNamespace` the rollback call
`vTaskDelete( xNewTask )` is commented out in the source.  Evaluating the model on
a namespace whose virtual PIDs are exhausted (10 tasks added, `ulNextPid = 11 >
ulMaxPid = 10`) with a successful underlying `xTaskCreate`: the bind fails, the
function returns `pdFAIL` and stores `NULL` through `pxCreatedTask`, yet the newly
created task (handle 99) is still alive. -/
theorem create_in_namespace_bind_failure_leaks_task :
    (let s0 := prvPidNamespaceInit
     let rA := xPidNamespaceCreate s0 "A"
     let sFull := (List.range 10).foldl
       (fun st i => (xPidNamespaceAddTask st rA.1 (i + 1)).2) rA.2
     let c := xTaskCreateInNamespace sFull [] true 99 rA.1
     c.1 = false ∧ c.2.1 = some 0 ∧ 99 ∈ c.2.2.2) := by
  decide

/-- Claim C1: starting from the initialized controller, create two PID namespaces
A and B and add one (fresh, distinct) task to each; then
`xPidNamespaceFindTaskByVirtualPid(A, 1)` returns task-A,
`xPidNamespaceFindTaskByVirtualPid(B, 1)` returns task-B, and the two returned
handles are different. -/
theorem find_by_virtual_pid_isolated (tA tB : Nat) (hA : tA ≠ 0) (hB : tB ≠ 0)
    (hAB : tA ≠ tB) :
    (let s0 := prvPidNamespaceInit
     let rA := xPidNamespaceCreate s0 "A"
     let rB := xPidNamespaceCreate rA.2 "B"
     let a1 := xPidNamespaceAddTask rB.2 rA.1 tA
     let a2 := xPidNamespaceAddTask a1.2 rB.1 tB
     a1.1 = true ∧ a2.1 = true ∧
     xPidNamespaceFindTaskByVirtualPid a2.2 rA.1 1 = some tA ∧
     xPidNamespaceFindTaskByVirtualPid a2.2 rB.1 1 = some tB ∧
     xPidNamespaceFindTaskByVirtualPid a2.2 rA.1 1
       ≠ xPidNamespaceFindTaskByVirtualPid a2.2 rB.1 1) := by
  have hA0 : (tA == 0) = false := by simpa using hA
  have hB0 : (tB == 0) = false := by simpa using hB
  have hABb : (tA == tB) = false := by simpa using hAB
  have hBAb : (tB == tA) = false := by simpa using Ne.symm hAB
  have hA1 : (tA != 0) = true := by simp [bne, hA0]
  have hB1 : (tB != 0) = true := by simp [bne, hB0]
  have hf0 : prvFindFreeNamespaceSlot 0 = some 0 := by decide
  have hf1 : prvFindFreeNamespaceSlot 1 = some 1 := by decide
  have hf3 : prvFindFreeNamespaceSlot 3 = some 2 := by decide
  have hb0 : (0 : Nat) ||| 1 <<< 0 = 1 := by decide
  have hb1 : (1 : Nat) ||| 1 <<< 1 = 3 := by decide
  have hb2 : (3 : Nat) ||| 1 <<< 2 = 7 := by decide
  simp only [prvPidNamespaceInit, xPidNamespaceCreate, xPidNamespaceAddTask,
    xPidNamespaceFindTaskByVirtualPid, pvTaskGetPidNamespace, uxTaskGetVirtualPid,
    xTaskSetPidNamespace, tcbSet, modifyAt, prvInitNamespace, pidExhausted,
    configMAX_PID_NAMESPACES, configPID_NAMESPACE_MAX_PID,
    configMAX_PID_NAMESPACE_NAME_LEN, hf0, hf1, hf3, hb0, hb1, hb2,
    List.find?, List.set, List.get?, List.map, List.replicate,
    hA0, hB0, hABb, hBAb]
  simp [hA1, hB1, hAB]

/-- Witness for `find_by_virtual_pid_isolated` at task handles 5 and 7. -/
theorem find_by_virtual_pid_isolated_witness :
    (let s0 := prvPidNamespaceInit
     let rA := xPidNamespaceCreate s0 "A"
     let rB := xPidNamespaceCreate rA.2 "B"
     let a1 := xPidNamespaceAddTask rB.2 rA.1 5
     let a2 := xPidNamespaceAddTask a1.2 rB.1 7
     a1.1 = true ∧ a2.1 = true ∧
     xPidNamespaceFindTaskByVirtualPid a2.2 rA.1 1 = some 5 ∧
     xPidNamespaceFindTaskByVirtualPid a2.2 rB.1 1 = some 7 ∧
     xPidNamespaceFindTaskByVirtualPid a2.2 rA.1 1
       ≠ xPidNamespaceFindTaskByVirtualPid a2.2 rB.1 1) :=
  find_by_virtual_pid_isolated 5 7 (by decide) (by decide) (by decide)

/-- Witness for `pid_exhaustion_is_permanent`: a concrete exhausted namespace. -/
theorem pid_exhaustion_is_permanent_witness :
    (let ns : PidNamespace :=
      { pcNamespaceName := "X", ulNamespaceId := 2, ulNextPid := 11, ulMaxPid := 10
        xTasks := List.replicate 10 0, uxTaskCount := 0, xActive := true }
     let s : PidSysState :=
      { xPidNamespaces := [ns], uxNamespaceBitmap := 1, xRootNamespace := some 0
        ulNextNamespaceId := 3, xTcbPid := [] }
     xPidNamespaceAddTask s (some 0) 42 = (false, s)) := by
  intro ns s
  exact (pid_exhaustion_is_permanent s 0 42 ns rfl (by decide)).1

/-! ## Theorems about the IPC namespace controller -/

/-- Claim C2: for every task T and IPC object O (a non-`NULL` pointer) with a
registry entry, `xIpcNamespaceCheckAccess` returns true iff T's IPC namespace —
the root namespace when T is unbound — equals the entry's owner namespace or is
the root namespace; for an O with no registry entry it returns true. -/
theorem check_access_spec (entries : List IpcObjectEntry) (rootNs : Nat)
    (taskNs : Option Nat) (obj : Nat) (hobj : obj ≠ 0) :
    (∀ e, entries.find? (fun e => e.pvIpcObject == obj) = some e →
      (xIpcNamespaceCheckAccess entries rootNs taskNs obj = true ↔
        (e.xNamespace = some (taskNs.getD rootNs) ∨ taskNs.getD rootNs = rootNs))) ∧
    (entries.find? (fun e => e.pvIpcObject == obj) = none →
      xIpcNamespaceCheckAccess entries rootNs taskNs obj = true) := by
  have h0 : (obj == 0) = false := by simpa using hobj
  constructor
  · intro e hfind
    unfold xIpcNamespaceCheckAccess
    rw [h0]
    simp only [Bool.false_eq_true, if_false, hfind]
    by_cases h1 : e.xNamespace = some (taskNs.getD rootNs)
    · simp [h1]
    · by_cases h2 : taskNs.getD rootNs = rootNs <;> simp [h1, h2]
  · intro hfind
    unfold xIpcNamespaceCheckAccess
    rw [h0]
    simp [hfind]

/-- Witness for `check_access_spec`: one registered queue owned by namespace 1,
root namespace 0; a task in namespace 2 is denied, and the iff holds. -/
theorem check_access_spec_witness :
    (∀ e, [(⟨some 1, 5, 0, "q", 1⟩ : IpcObjectEntry)].find?
        (fun e => e.pvIpcObject == 5) = some e →
      (xIpcNamespaceCheckAccess [⟨some 1, 5, 0, "q", 1⟩] 0 (some 2) 5 = true ↔
        (e.xNamespace = some ((some 2).getD 0) ∨ (some 2).getD 0 = 0))) ∧
    ([(⟨some 1, 5, 0, "q", 1⟩ : IpcObjectEntry)].find?
        (fun e => e.pvIpcObject == 5) = none →
      xIpcNamespaceCheckAccess [⟨some 1, 5, 0, "q", 1⟩] 0 (some 2) 5 = true) :=
  check_access_spec [⟨some 1, 5, 0, "q", 1⟩] 0 (some 2) 5 (by decide)

/-! ## Theorems about the CGroup controller -/

/-- `xCGroupCreate` establishes the quota invariant consumed by the admission
check. -/
theorem cpuQuotaInv_create (name : String) (mem quota cur : Nat) :
    cpuQuotaInv (xCGroupCreateStruct name mem quota cur) := by
  unfold cpuQuotaInv xCGroupCreateStruct
  by_cases h : quota = CGROUP_CPU_QUOTA_MAX <;> simp [h]

/-- Claim C3: `prvCGroupCanTaskRun` returns true for a task bound to no cgroup;
for a task bound to a cgroup satisfying the create-time quota invariant (with the
raw quota not the `(UBaseType_t)-1` bit pattern), it returns true iff the penalty
count is zero and either the quota is the `CGROUP_CPU_QUOTA_MAX` sentinel or the
ticks used in the current window are strictly below the quota. -/
theorem can_run_admission (s : CGroupSysState) (t : Nat) :
    (prvGetCGroupFromTask s t = none → prvCGroupCanTaskRun s t = true) ∧
    (∀ i cg, prvGetCGroupFromTask s t = some i → s.xCGroups.get? i = some cg →
      cpuQuotaInv cg → cg.xCpuLimits.ulCpuQuota ≠ CGROUP_NO_LIMIT →
      (prvCGroupCanTaskRun s t = true ↔
        (cg.xCpuLimits.ulPenaltyTicksLeft = 0 ∧
          (cg.xCpuLimits.ulCpuQuota = CGROUP_CPU_QUOTA_MAX ∨
            cg.xCpuLimits.ulTicksUsed < cg.xCpuLimits.ulCpuQuota)))) := by
  constructor
  · intro hnone
    unfold prvCGroupCanTaskRun
    by_cases h0 : (t == 0) = true
    · rw [if_pos h0]
    · rw [if_neg h0, hnone]
  · intro i cg hmap hget hinv hq
    have h0 : (t == 0) = false := by
      cases hb : (t == 0) with
      | false => rfl
      | true =>
          unfold prvGetCGroupFromTask at hmap
          rw [if_pos hb] at hmap
          cases hmap
    unfold prvCGroupCanTaskRun
    rw [h0]
    simp only [Bool.false_eq_true, if_false, hmap, hget]
    unfold cpuQuotaInv at hinv
    by_cases hmax : cg.xCpuLimits.ulCpuQuota = CGROUP_CPU_QUOTA_MAX
    · rw [if_pos hmax] at hinv
      split_ifs with h1 h2 <;> simp_all <;> omega
    · rw [if_neg hmax] at hinv
      split_ifs with h1 h2 <;> simp_all <;> omega

/-- Witness for `can_run_admission`: a freshly created cgroup with quota 10 and
task 7 bound to it. -/
theorem can_run_admission_witness :
    (let cg := xCGroupCreateStruct "G" 1000 10 0
     let s : CGroupSysState :=
       { xCGroups := [cg], uxCGroupBitmap := 1, xTaskCGroupMap := [(7, 0)] }
     prvCGroupCanTaskRun s 7 = true ↔
       (cg.xCpuLimits.ulPenaltyTicksLeft = 0 ∧
         (cg.xCpuLimits.ulCpuQuota = CGROUP_CPU_QUOTA_MAX ∨
           cg.xCpuLimits.ulTicksUsed < cg.xCpuLimits.ulCpuQuota))) := by
  intro cg s
  exact (can_run_admission s 7).2 0 cg rfl rfl (cpuQuotaInv_create "G" 1000 10 0)
    (by decide)

/-- Claim C4, counterexample: a cgroup with quota 10 that used 30 ticks, at the
tick on which the window rolls over.  The claim's formula predicts the penalty
increases by exactly `(30 - 10) * window / 10 = 2 * window`; the code yields two
fewer ticks (one decrement inside the rollover branch of `prvUpdateCpuWindow`,
one more in the per-tick decrement of `prvCGroupUpdateTick`, which runs on
rollover ticks too). -/
theorem window_rollover_penalty_not_exact :
    (let cg : CGroup :=
      { pcGroupName := "G"
        xMemoryLimits := ⟨1000, 0, 0⟩
        xCpuLimits :=
          { ulCpuQuota := 10, ulTicksUsed := 30, ulTicksQuota := 10
            ulPenaltyTicksLeft := 0, xWindowStartTime := 0
            xWindowDuration := configCGROUP_CPU_WINDOW_DURATION }
        uxTaskCount := 1, xActive := true }
     let nxt := prvCGroupUpdateTickOne configCGROUP_CPU_WINDOW_DURATION false cg
     tickMinus configCGROUP_CPU_WINDOW_DURATION cg.xCpuLimits.xWindowStartTime
         ≥ cg.xCpuLimits.xWindowDuration ∧
       nxt.xCpuLimits.ulPenaltyTicksLeft ≠
         cg.xCpuLimits.ulPenaltyTicksLeft +
           (cg.xCpuLimits.ulTicksUsed - cg.xCpuLimits.ulTicksQuota) *
             configCGROUP_CPU_WINDOW_DURATION / cg.xCpuLimits.ulTicksQuota) := by
  decide

/-- Claim C4 as amended: on the tick at which `current - window-start` reaches the
window duration, `ticksUsed` and the window start are reset and the penalty
becomes `old + excess-penalty - 2` (saturating): the excess penalty
`rolloverPenalty` is added, then the counter is decremented once inside the
rollover branch and once more by the per-tick decrement, which runs on rollover
ticks as well.  On a tick where the window does not roll over, the penalty is
decremented by exactly one (saturating at zero) and, apart from the tick-usage
increment for the running task, nothing else changes.  When the quota is the
CPU-max sentinel (`ulTicksQuota = CGROUP_NO_LIMIT`), `rolloverPenalty` is zero —
no excess is ever recorded. -/
theorem cgroup_tick_rollover_aux (cg : CGroup) (cur : Nat)
    (hs : cg.xCpuLimits.xWindowStartTime ≤ cur) (hc : cur < 2 ^ 32)
    (hroll : cur - cg.xCpuLimits.xWindowStartTime ≥ cg.xCpuLimits.xWindowDuration) :
    prvCGroupUpdateTickOne cur false cg =
      { cg with xCpuLimits := { cg.xCpuLimits with
          ulTicksUsed := 0
          xWindowStartTime := cur
          ulPenaltyTicksLeft :=
            cg.xCpuLimits.ulPenaltyTicksLeft + rolloverPenalty cg false - 2 } } := by
  have htick : tickMinus cur cg.xCpuLimits.xWindowStartTime
      = cur - cg.xCpuLimits.xWindowStartTime := tickMinus_eq_sub hs hc
  by_cases hex : cg.xCpuLimits.ulTicksQuota ≠ CGROUP_NO_LIMIT ∧
      cg.xCpuLimits.ulTicksUsed > cg.xCpuLimits.ulTicksQuota
  · have hrp : rolloverPenalty cg false =
        (cg.xCpuLimits.ulTicksUsed - cg.xCpuLimits.ulTicksQuota) *
          configCGROUP_CPU_WINDOW_DURATION / cg.xCpuLimits.ulTicksQuota := by
      unfold rolloverPenalty
      rw [if_pos (by simpa using hex)]
      simp
    have hcalc : prvCalculatePenalty cg =
        { cg with xCpuLimits := { cg.xCpuLimits with
            ulPenaltyTicksLeft := cg.xCpuLimits.ulPenaltyTicksLeft +
              (cg.xCpuLimits.ulTicksUsed - cg.xCpuLimits.ulTicksQuota) *
                configCGROUP_CPU_WINDOW_DURATION / cg.xCpuLimits.ulTicksQuota } } := by
      unfold prvCalculatePenalty
      rw [if_pos hex]
    simp only [prvCGroupUpdateTickOne, prvUpdateCpuWindow, Bool.false_eq_true,
      if_false, htick, hrp, hcalc]
    rw [if_pos hroll]
    generalize hP : cg.xCpuLimits.ulPenaltyTicksLeft +
      (cg.xCpuLimits.ulTicksUsed - cg.xCpuLimits.ulTicksQuota) *
        configCGROUP_CPU_WINDOW_DURATION / cg.xCpuLimits.ulTicksQuota = P
    split_ifs <;> simp_all [CGroup.mk.injEq, CpuLimits.mk.injEq] <;> omega
  · have hrp : rolloverPenalty cg false = 0 := by
      unfold rolloverPenalty
      rw [if_neg (by simpa using hex)]
    have hcalc : prvCalculatePenalty cg = cg := by
      unfold prvCalculatePenalty
      rw [if_neg hex]
    simp only [prvCGroupUpdateTickOne, prvUpdateCpuWindow, Bool.false_eq_true,
      if_false, htick, hrp, hcalc]
    rw [if_pos hroll]
    split_ifs <;> simp_all [CGroup.mk.injEq, CpuLimits.mk.injEq] <;> omega

theorem cgroup_tick_noroll_aux (cg : CGroup) (cur : Nat)
    (hs : cg.xCpuLimits.xWindowStartTime ≤ cur) (hc : cur < 2 ^ 32)
    (hlt : cur - cg.xCpuLimits.xWindowStartTime < cg.xCpuLimits.xWindowDuration) :
    prvCGroupUpdateTickOne cur false cg =
      { cg with xCpuLimits := { cg.xCpuLimits with
          ulPenaltyTicksLeft := cg.xCpuLimits.ulPenaltyTicksLeft - 1 } } := by
  obtain ⟨name, mem, ⟨q, used, tq, p, st, dur⟩, tc, act⟩ := cg
  have hs2 : st ≤ cur := hs
  have hlt2 : cur - st < dur := hlt
  have htick : tickMinus cur st = cur - st := tickMinus_eq_sub hs2 hc
  have hnoroll : ¬ (cur - st ≥ dur) := by omega
  simp only [prvCGroupUpdateTickOne, prvUpdateCpuWindow, Bool.false_eq_true,
    if_false, htick]
  rw [if_neg hnoroll]
  split_ifs with h1 <;>
    simp_all [CGroup.mk.injEq, CpuLimits.mk.injEq] <;> omega

/-- Claim C4 as amended: on the tick at which `current - window-start` reaches the
window duration, `ticksUsed` and the window start are reset and the penalty
becomes `old + excess-penalty - 2` (saturating): the excess penalty
`rolloverPenalty` is added, then the counter is decremented once inside the
rollover branch and once more by the per-tick decrement, which runs on rollover
ticks as well.  On a tick where the window does not roll over, the penalty is
decremented by exactly one (saturating at zero) and, apart from the tick-usage
increment for the running task, nothing else changes.  When the quota is the
CPU-max sentinel (`ulTicksQuota = CGROUP_NO_LIMIT`), `rolloverPenalty` is zero —
no excess is ever recorded. -/
theorem window_rollover_and_penalty_decay (cg : CGroup) (cur : Nat) (run : Bool)
    (hs : cg.xCpuLimits.xWindowStartTime ≤ cur) (hc : cur < 2 ^ 32) :
    (cur - cg.xCpuLimits.xWindowStartTime ≥ cg.xCpuLimits.xWindowDuration →
      prvCGroupUpdateTickOne cur run cg =
        { cg with xCpuLimits := { cg.xCpuLimits with
            ulTicksUsed := 0
            xWindowStartTime := cur
            ulPenaltyTicksLeft :=
              cg.xCpuLimits.ulPenaltyTicksLeft + rolloverPenalty cg run - 2 } }) ∧
    (cur - cg.xCpuLimits.xWindowStartTime < cg.xCpuLimits.xWindowDuration →
      prvCGroupUpdateTickOne cur run cg =
        { cg with xCpuLimits := { cg.xCpuLimits with
            ulTicksUsed := cg.xCpuLimits.ulTicksUsed + (if run then 1 else 0)
            ulPenaltyTicksLeft := cg.xCpuLimits.ulPenaltyTicksLeft - 1 } }) := by
  constructor
  · intro hroll
    cases run with
    | false => exact cgroup_tick_rollover_aux cg cur hs hc hroll
    | true =>
        exact cgroup_tick_rollover_aux
          { cg with xCpuLimits := { cg.xCpuLimits with
              ulTicksUsed := cg.xCpuLimits.ulTicksUsed + 1 } } cur hs hc hroll
  · intro hlt
    cases run with
    | false => exact cgroup_tick_noroll_aux cg cur hs hc hlt
    | true =>
        exact cgroup_tick_noroll_aux
          { cg with xCpuLimits := { cg.xCpuLimits with
              ulTicksUsed := cg.xCpuLimits.ulTicksUsed + 1 } } cur hs hc hlt

/-- Witness for `window_rollover_and_penalty_decay`: the quota-10 cgroup of the
counterexample, at the rollover tick. -/
theorem window_rollover_and_penalty_decay_witness :
    (let cg : CGroup :=
      { pcGroupName := "G"
        xMemoryLimits := ⟨1000, 0, 0⟩
        xCpuLimits :=
          { ulCpuQuota := 10, ulTicksUsed := 30, ulTicksQuota := 10
            ulPenaltyTicksLeft := 0, xWindowStartTime := 0
            xWindowDuration := configCGROUP_CPU_WINDOW_DURATION }
        uxTaskCount := 1, xActive := true }
     (configCGROUP_CPU_WINDOW_DURATION - cg.xCpuLimits.xWindowStartTime
         ≥ cg.xCpuLimits.xWindowDuration →
       prvCGroupUpdateTickOne configCGROUP_CPU_WINDOW_DURATION false cg =
         { cg with xCpuLimits := { cg.xCpuLimits with
             ulTicksUsed := 0
             xWindowStartTime := configCGROUP_CPU_WINDOW_DURATION
             ulPenaltyTicksLeft :=
               cg.xCpuLimits.ulPenaltyTicksLeft + rolloverPenalty cg false - 2 } }) ∧
     (configCGROUP_CPU_WINDOW_DURATION - cg.xCpuLimits.xWindowStartTime
         < cg.xCpuLimits.xWindowDuration →
       prvCGroupUpdateTickOne configCGROUP_CPU_WINDOW_DURATION false cg =
         { cg with xCpuLimits := { cg.xCpuLimits with
             ulTicksUsed := cg.xCpuLimits.ulTicksUsed + (if false then 1 else 0)
             ulPenaltyTicksLeft := cg.xCpuLimits.ulPenaltyTicksLeft - 1 } })) := by
  intro cg
  exact window_rollover_and_penalty_decay cg configCGROUP_CPU_WINDOW_DURATION false
    (by decide) (by decide)

/-! ## Theorems about the container manager creation path -/

/-- Claim C5, counterexample: when creation of the cgroup (or of the PID or IPC
namespace) fails, `xContainerCreateWithLimits` does not roll back — it proceeds,
links the container and returns `pdPASS`, leaving the other resources constructed
("Continue without CGroup" in the source). -/
theorem container_create_swallows_resource_failures :
    xContainerCreateWithLimits ⟨true, true, false, true, true, true⟩ =
      { xReturn := true, cgStatus := ResStatus.notCreated
        pidStatus := ResStatus.live, ipcStatus := ResStatus.live
        structStatus := ResStatus.live, addedToList := true } ∧
    xContainerCreateWithLimits ⟨true, true, true, false, true, true⟩ =
      { xReturn := true, cgStatus := ResStatus.live
        pidStatus := ResStatus.notCreated, ipcStatus := ResStatus.live
        structStatus := ResStatus.live, addedToList := true } ∧
    xContainerCreateWithLimits ⟨true, true, true, true, false, true⟩ =
      { xReturn := true, cgStatus := ResStatus.live
        pidStatus := ResStatus.live, ipcStatus := ResStatus.notCreated
        structStatus := ResStatus.live, addedToList := true } := by
  decide

/-- Claim C5 as amended: only the list-insertion step triggers rollback.  With a
valid name and successful struct allocation: if taking the container-list mutex
succeeds, create returns `pdPASS` and links the container, keeping whichever of
the three resources could be created (failed creations are tolerated, the handle
stays `NULL`); if taking the mutex fails, create deletes every resource it had
constructed, frees the struct, returns `pdFAIL` and links nothing. -/
theorem container_create_rollback_amended (env : CreateEnv)
    (hname : env.nameValid = true) (hmalloc : env.mallocOk = true) :
    (env.mutexOk = true →
      xContainerCreateWithLimits env =
        { xReturn := true
          cgStatus := if env.cgroupOk then ResStatus.live else ResStatus.notCreated
          pidStatus := if env.pidNsOk then ResStatus.live else ResStatus.notCreated
          ipcStatus := if env.ipcNsOk then ResStatus.live else ResStatus.notCreated
          structStatus := ResStatus.live, addedToList := true }) ∧
    (env.mutexOk = false →
      xContainerCreateWithLimits env =
        { xReturn := false
          cgStatus := if env.cgroupOk then ResStatus.deleted else ResStatus.notCreated
          pidStatus := if env.pidNsOk then ResStatus.deleted else ResStatus.notCreated
          ipcStatus := if env.ipcNsOk then ResStatus.deleted else ResStatus.notCreated
          structStatus := ResStatus.deleted, addedToList := false }) := by
  obtain ⟨n, m, c, p, i, x⟩ := env
  simp only at hname hmalloc
  subst hname
  subst hmalloc
  cases c <;> cases p <;> cases i <;> cases x <;>
    simp [xContainerCreateWithLimits, cleanupRes]

/-- Witness for `container_create_rollback_amended`: list insertion fails with all
three resources created — everything is rolled back. -/
theorem container_create_rollback_amended_witness :
    ((false : Bool) = true →
      xContainerCreateWithLimits ⟨true, true, true, true, true, false⟩ =
        { xReturn := true, cgStatus := ResStatus.live
          pidStatus := ResStatus.live, ipcStatus := ResStatus.live
          structStatus := ResStatus.live, addedToList := true }) ∧
    ((false : Bool) = false →
      xContainerCreateWithLimits ⟨true, true, true, true, true, false⟩ =
        { xReturn := false, cgStatus := ResStatus.deleted
          pidStatus := ResStatus.deleted, ipcStatus := ResStatus.deleted
          structStatus := ResStatus.deleted, addedToList := false }) :=
  container_create_rollback_amended ⟨true, true, true, true, true, false⟩ rfl rfl

/-! ## Theorems about the container image codec -/

/-- Claim C6 (code bug): after the container directory has been created, read
failures do not remove it.  A zero-length image (the count byte cannot be read)
and a truncated image (count 2, no records) both return `pdFAIL` with the
directory left in place (`dirRemoved = false`): the `cleanup_file` path only
closes the image file, its directory-removal block being an unimplemented
comment.  Only a failure to open the image takes the `cleanup_dir` path that
does remove the directory (third conjunct, for contrast). -/
theorem unpack_read_failure_keeps_directory :
    xContainerUnpackImage
        { imagePathValid := true, fsOk := true, varOk := true
          varContainerOk := true, dirAlreadyExists := false, mkdirOk := true
          openOk := true, image := [] } =
      { xReturn := false, dirCreated := true, dirRemoved := false, files := [] } ∧
    xContainerUnpackImage
        { imagePathValid := true, fsOk := true, varOk := true
          varContainerOk := true, dirAlreadyExists := false, mkdirOk := true
          openOk := true, image := [2] } =
      { xReturn := false, dirCreated := true, dirRemoved := false, files := [] } ∧
    xContainerUnpackImage
        { imagePathValid := true, fsOk := true, varOk := true
          varContainerOk := true, dirAlreadyExists := false, mkdirOk := true
          openOk := false, image := [] } =
      { xReturn := false, dirCreated := true, dirRemoved := true, files := [] } := by
  decide

/-- Claim C7, counterexample: packing a container directory with zero regular
files (only `.` and `..` entries) does not produce the one-byte `0x00` image —
it returns `pdFAIL` before the image file is even created. -/
theorem pack_zero_files_fails :
    xContainerPackImage
        { imagePathValid := true, fsOk := true, dirExists := true
          dirOpenOk := true, imageCreateOk := true
          entries := [⟨[46], false, []⟩, ⟨[46, 46], false, []⟩] } = (false, none) ∧
    ¬ xContainerPackImage
        { imagePathValid := true, fsOk := true, dirExists := true
          dirOpenOk := true, imageCreateOk := true
          entries := [⟨[46], false, []⟩, ⟨[46, 46], false, []⟩] } =
      (true, some [0]) := by
  decide

/-- Claim C7 as amended: the one-byte `0x00` image can be consumed but never
produced.  Unpacking the image `[0x00]` succeeds and yields an empty container
directory; packing any container directory containing zero regular files returns
`pdFAIL` and creates no image file. -/
theorem zero_file_image_amended :
    (∀ env : PackEnv, env.imagePathValid = true → env.fsOk = true →
      env.dirExists = true → env.dirOpenOk = true →
      packCandidates env.entries = [] → xContainerPackImage env = (false, none)) ∧
    xContainerUnpackImage
        { imagePathValid := true, fsOk := true, varOk := true
          varContainerOk := true, dirAlreadyExists := false, mkdirOk := true
          openOk := true, image := [0] } =
      { xReturn := true, dirCreated := true, dirRemoved := false, files := [] } := by
  constructor
  · intro env h1 h2 h3 h4 hcand
    unfold xContainerPackImage
    rw [h1, h2, h3, h4]
    simp [hcand]
  · decide

/-- Witness for `zero_file_image_amended`: the dot-entries-only directory. -/
theorem zero_file_image_amended_witness :
    xContainerPackImage
        { imagePathValid := true, fsOk := true, dirExists := true
          dirOpenOk := true, imageCreateOk := true
          entries := [⟨[46], false, []⟩, ⟨[46, 46], false, []⟩] } = (false, none) :=
  zero_file_image_amended.1
    { imagePathValid := true, fsOk := true, dirExists := true
      dirOpenOk := true, imageCreateOk := true
      entries := [⟨[46], false, []⟩, ⟨[46, 46], false, []⟩] }
    rfl rfl rfl rfl (by decide)

end FreertosContainer
